import Mathlib

/-!
Verification of the libpqxx string-conversion core.

Shallow embedding of the string-conversion framework of libpqxx
(`src/include/pqxx/strconv.hxx`, `src/include/pqxx/internal/type_utils.hxx`) and of
the behaviour exercised by `src/test/unit/test_strconv.cxx`.

* C++ type-level capability predicates (`is_derefable`, `is_optional`,
  `takes_std_nullopt`, assignability from `nullptr`) are modelled by a record of
  booleans `TypeCaps`; the three `null_value<T>()` overloads become three
  boolean enable conditions over such a record.
* A `string_traits<T>` specialisation is modelled by a `StringTraits α` bundle.
  C++ exceptions become `Except ConvError`; a `std::string_view` whose
  `data()` may be the null pointer becomes `Option String` (`none` = null data
  pointer, `some ""` = present-but-empty view).
* An optional-like wrapper object (a `std::optional`, raw pointer,
  `unique_ptr`, `shared_ptr`, ...) is modelled by its observable state
  `Option α`: `none` when disengaged/null, `some x` when it holds `x`.

The implementations of the built-in `string_traits<bool>` /
`string_traits<int>` specialisations and of the body of `pqxx::to_buf` live in
`pqxx/internal/conversions.hxx`, which is not part of the sources here; those
definitions are modelled from the specification and marked as such.
-/

/-- Errors raised by the conversion framework.  `nullConversion` carries the
human-readable type name (`pqxx::internal::throw_null_conversion(type_name<T>)`),
`parseError` models `pqxx::argument_error`/format failures, `readNullString` is
the `std::runtime_error{"Attempt to read null string."}` thrown by the
top-level `pqxx::from_string` (strconv.hxx:199), and `conversionOverrun` is
`pqxx::conversion_overrun` raised by `to_buf`. -/
inductive ConvError where
  | nullConversion (typeName : String)
  | parseError (input : String)
  | readNullString
  | conversionOverrun
deriving DecidableEq, Repr

/-! ## Capability introspection (type_utils.hxx lines 22-52)

A C++ type is abstracted by the four compile-time capabilities the
classification machinery queries.  Each field answers one predicate:
`derefable` is `pqxx::internal::is_derefable<T>::value` (an `operator *`
exists and `T` is not an array), `bool_testable` is
`std::is_constructible<bool, T>::value`, `nullopt_assignable` is
`std::is_assignable<T, std::nullopt_t>::value`, and `nullptr_assignable` is
`std::is_assignable<T, std::nullptr_t>::value`. -/
structure TypeCaps where
  derefable : Bool
  bool_testable : Bool
  nullopt_assignable : Bool
  nullptr_assignable : Bool
deriving DecidableEq, Repr

/-- Predicate `pqxx::internal::is_optional<T>` (type_utils.hxx lines 36-41):
dereferenceable and constructible to a presence boolean. -/
def is_optional (c : TypeCaps) : Bool :=
  c.derefable && c.bool_testable

/-- Predicate `pqxx::internal::takes_std_nullopt<T>` (type_utils.hxx lines 44-52). -/
def takes_std_nullopt (c : TypeCaps) : Bool :=
  c.nullopt_assignable

/-- The three null-representation rules: the three `null_value<T>()` overloads
of type_utils.hxx lines 82-105. -/
inductive NullRule where
  | pointerNull
  | markerNull
  | fallback
deriving DecidableEq, Repr

/-- The `enable_if` condition of each `null_value<T>()` overload
(type_utils.hxx lines 82-105):
* `pointerNull` (lines 82-91): `is_optional<T> && !takes_std_nullopt<T> &&
  is_assignable<T, nullptr_t>` — returns `nullptr`;
* `fallback` (lines 93-98): `!is_optional<T> && !takes_std_nullopt<T>` —
  returns `pqxx::string_traits<T>::null()`;
* `markerNull` (lines 100-105): `takes_std_nullopt<T>` — returns
  `std::nullopt`. -/
def rule_enabled (c : TypeCaps) : NullRule → Bool
  | NullRule.pointerNull =>
      is_optional c && !takes_std_nullopt c && c.nullptr_assignable
  | NullRule.fallback =>
      !is_optional c && !takes_std_nullopt c
  | NullRule.markerNull =>
      takes_std_nullopt c

/-- The set of `null_value<T>()` overloads enabled for a type with
capabilities `c`. -/
def enabled_rules (c : TypeCaps) : List NullRule :=
  [NullRule.pointerNull, NullRule.markerNull, NullRule.fallback].filter
    (rule_enabled c)

/-! ## Conversion trait registry (strconv.hxx lines 69-75)

A `pqxx::string_traits<T>` specialisation, bundled as data.  `from_string`
receives the input view (`none` = view with null `data()`) and the current
output object (C++ passes `T &obj` in/out) and returns the new object;
`default_val` models a default-constructed `T` (used for the local
`I inner;` in the optional-wrapper traits and `underlying_type tmp;` in
`enum_traits`). -/
structure StringTraits (α : Type) where
  type_name : String
  default_val : α
  has_null : Bool
  is_null : α → Bool
  null_val : Option α
  from_string : Option String → α → Except ConvError α
  to_string : α → Except ConvError String

/-- Top-level `pqxx::from_string` (strconv.hxx lines 196-201): a null input
view fails immediately with the distinct `std::runtime_error`, before any
dispatch to `string_traits<T>::from_string`; any present view — empty
included — is dispatched. -/
def from_string_top {α : Type} (it : StringTraits α) (str : Option String)
    (obj : α) : Except ConvError α :=
  match str with
  | none => Except.error ConvError.readNullString
  | some s => it.from_string (some s) obj

/-- Top-level `pqxx::to_string` (strconv.hxx lines 215-216). -/
def to_string_top {α : Type} (it : StringTraits α) (obj : α) :
    Except ConvError String :=
  it.to_string obj

/-! ## The meta `string_traits` for optional-like wrapper types
(type_utils.hxx lines 148-178) -/

/-- Constructor `pqxx::internal::make_optional<T>(v)` (type_utils.hxx lines 118-139).
All three overloads — direct construction `T(v)`, `unique_ptr<I>(new I(v))`,
`make_shared<I>(v)` — produce a wrapper whose observable state holds `v`. -/
def make_optional {α : Type} (v : α) : Option α :=
  some v

/-- The value `internal::null_value<T>()` for a classified wrapper type: both the
pointer-null rule (`nullptr`) and the marker-null rule (`std::nullopt`) yield
the disengaged wrapper state. -/
def opt_null (α : Type) : Option α :=
  (none : Option α)

/-- Member `string_traits<T>::is_null` for optional-like `T` (type_utils.hxx lines
154-155): `not v || string_traits<I>::is_null(*v)`. -/
def opt_is_null {α : Type} (it : StringTraits α) (v : Option α) : Bool :=
  match v with
  | none => true
  | some x => it.is_null x

/-- The tail of `string_traits<T>::from_string` (type_utils.hxx lines
164-167): `if (obj) *obj = inner; else obj = internal::make_optional<T>(inner)`. -/
def opt_assign_parsed {α : Type} (obj : Option α) (inner : α) : Option α :=
  match obj with
  | some _ => some inner
  | none => make_optional inner

/-- Member `string_traits<T>::from_string` for optional-like `T` (type_utils.hxx
lines 157-169): a view with null `data()` assigns `null()`; otherwise the
view is parsed into a default-constructed `I inner` by the contained type's
traits and assigned via `opt_assign_parsed`. -/
def opt_from_string {α : Type} (it : StringTraits α) (str : Option String)
    (obj : Option α) : Except ConvError (Option α) :=
  match str with
  | none => Except.ok (opt_null α)
  | some s =>
    match it.from_string (some s) it.default_val with
    | Except.error e => Except.error e
    | Except.ok inner => Except.ok (opt_assign_parsed obj inner)

/-- Member `string_traits<T>::to_string` for optional-like `T` (type_utils.hxx lines
170-174): `if (is_null(Obj)) internal::throw_null_conversion(type_name<T>);
return string_traits<I>::to_string(*Obj);`.  Because `is_null` is
`not Obj || is_null(*Obj)`, the disengaged case always throws and the engaged
case throws exactly when the contained value is null. -/
def opt_to_string {α : Type} (it : StringTraits α) (tyName : String)
    (obj : Option α) : Except ConvError String :=
  match obj with
  | none => Except.error (ConvError.nullConversion tyName)
  | some x =>
    if it.is_null x then Except.error (ConvError.nullConversion tyName)
    else it.to_string x

/-- The full derived `string_traits` bundle for an optional-like wrapper over
a contained type with traits `it` (type_utils.hxx lines 148-178). -/
def optional_string_traits {α : Type} (it : StringTraits α) (tyName : String) :
    StringTraits (Option α) where
  type_name := tyName
  default_val := none
  has_null := true
  is_null := opt_is_null it
  null_val := some (opt_null α)
  from_string := opt_from_string it
  to_string := opt_to_string it tyName

/-! ## Built-in boolean conversion

Modelled from the spec: the `string_traits<bool>` specialisation implemented
in `pqxx/internal/conversions.hxx`, which is not among the sources here.
Grammar per spec §6 and the expectations of `test_strconv_bool`
(test_strconv.cxx lines 18-44): `true`/`TRUE`/`t`/`T`/`1` parse to `true`,
`false`/`FALSE`/`f`/`F`/`0` parse to `false`, anything else — whitespace
included — is a parse failure; formatting yields exactly `"true"`/`"false"`. -/
def bool_to_string_impl (b : Bool) : String :=
  if b then "true" else "false"

/-- Modelled from the spec: boolean parsing (see `bool_to_string_impl`). -/
def bool_from_string_impl (s : String) : Except ConvError Bool :=
  if s = "true" || s = "TRUE" || s = "t" || s = "T" || s = "1" then
    Except.ok true
  else if s = "false" || s = "FALSE" || s = "f" || s = "F" || s = "0" then
    Except.ok false
  else
    Except.error (ConvError.parseError s)

/-- Modelled from the spec: the `string_traits<bool>` bundle (implementation
in `pqxx/internal/conversions.hxx`, absent from the sources). -/
def bool_traits : StringTraits Bool where
  type_name := "bool"
  default_val := false
  has_null := false
  is_null _ := false
  null_val := none
  from_string := fun str _ =>
    match str with
    | none => Except.error (ConvError.parseError "")
    | some s => bool_from_string_impl s
  to_string b := Except.ok (bool_to_string_impl b)

/-! ## Built-in integer conversion

Modelled from the spec: the integer `string_traits` specialisations
implemented in `pqxx/internal/conversions.hxx`, absent from the sources.
Per spec §6: decimal digits only, optional single leading sign, no
whitespace, no prefixes; a magnitude exceeding the target type's range is a
parse failure.  Formatting produces the canonical decimal text. -/

/-- The decimal digit character for `d < 10`. -/
def digit_char (d : Nat) : Char :=
  if d = 0 then '0' else if d = 1 then '1' else if d = 2 then '2'
  else if d = 3 then '3' else if d = 4 then '4' else if d = 5 then '5'
  else if d = 6 then '6' else if d = 7 then '7' else if d = 8 then '8'
  else '9'

/-- The numeric value of a decimal digit character, `none` for non-digits. -/
def digit_val (c : Char) : Option Nat :=
  if '0' ≤ c && c ≤ '9' then some (c.toNat - Char.toNat '0') else none

/-- Decimal digit string of a natural number, most significant digit first. -/
def nat_digits (n : Nat) : List Char :=
  if _h : n < 10 then [digit_char n]
  else nat_digits (n / 10) ++ [digit_char (n % 10)]
decreasing_by exact Nat.div_lt_self (by omega) (by omega)

/-- Left-to-right accumulation of decimal digits; fails on any non-digit. -/
def parse_digits_aux (cs : List Char) (acc : Nat) : Option Nat :=
  match cs with
  | [] => some acc
  | c :: rest =>
    match digit_val c with
    | some d => parse_digits_aux rest (10 * acc + d)
    | none => none

/-- Modelled from the spec: decimal rendering of a signed integer. -/
def int_to_chars (i : Int) : List Char :=
  if i < 0 then '-' :: nat_digits i.natAbs else nat_digits i.natAbs

/-- Modelled from the spec: parsing of a signed decimal integer constrained
to the range `[lo, hi]`; an optional single leading `-` or `+`, then at
least one digit, nothing else; out-of-range magnitudes are parse errors. -/
def int_from_chars (lo hi : Int) (cs : List Char) : Except ConvError Int :=
  if cs = [] then Except.error (ConvError.parseError (String.mk cs))
  else
    let sign : Int := if cs.head? = some '-' then -1 else 1
    let ds : List Char :=
      if cs.head? = some '-' || cs.head? = some '+' then cs.tail else cs
    if ds = [] then Except.error (ConvError.parseError (String.mk cs))
    else
      match parse_digits_aux ds 0 with
      | none => Except.error (ConvError.parseError (String.mk cs))
      | some n =>
        let v : Int := sign * (n : Int)
        if lo ≤ v ∧ v ≤ hi then Except.ok v
        else Except.error (ConvError.parseError (String.mk cs))

/-- Constant `INT_MIN` of the 32-bit `int` modelled as the underlying numeric type. -/
def cint_min : Int := -2147483648

/-- Constant `INT_MAX` of the 32-bit `int`. -/
def cint_max : Int := 2147483647

/-- Modelled from the spec: the `string_traits<int>` bundle (implementation
in `pqxx/internal/conversions.hxx`, absent from the sources). -/
def int_traits : StringTraits Int where
  type_name := "int"
  default_val := 0
  has_null := false
  is_null _ := false
  null_val := none
  from_string := fun str _ =>
    match str with
    | none => Except.error (ConvError.parseError "")
    | some s => int_from_chars cint_min cint_max s.data
  to_string i := Except.ok (String.mk (int_to_chars i))

/-! ## Enum conversion adapter (strconv.hxx lines 141-159)

`pqxx::enum_traits<ENUM>` delegates to the underlying integer type's traits.
An enum value is modelled by its underlying integer value, which is exactly
what `underlying_type(obj)` and `ENUM(tmp)` transport. -/

/-- The C++ cast `ENUM(tmp)` of strconv.hxx line 154: reinterpret the parsed
underlying integer as the enum, with no range validation. -/
def enum_of_underlying (tmp : Int) : Int :=
  tmp

/-- The C++ cast `underlying_type(obj)` of strconv.hxx line 158. -/
def enum_underlying (obj : Int) : Int :=
  obj

/-- Member `enum_traits<ENUM>::from_string` (strconv.hxx lines 150-155):
`underlying_type tmp; underlying_traits::from_string(str, tmp);
obj = ENUM(tmp);`. -/
def enum_from_string (ut : StringTraits Int) (str : Option String) (_obj : Int) :
    Except ConvError Int :=
  match ut.from_string str ut.default_val with
  | Except.error e => Except.error e
  | Except.ok tmp => Except.ok (enum_of_underlying tmp)

/-- Member `enum_traits<ENUM>::to_string` (strconv.hxx lines 157-158). -/
def enum_to_string (ut : StringTraits Int) (obj : Int) :
    Except ConvError String :=
  ut.to_string (enum_underlying obj)

/-- The `string_traits` specialisation generated by
`PQXX_DECLARE_ENUM_CONVERSION` (strconv.hxx lines 174-180): `enum_traits`
with a `null()` that always throws (`has_null` stays `false`, no null
value). -/
def enum_string_traits (ut : StringTraits Int) (tyName : String) :
    StringTraits Int where
  type_name := tyName
  default_val := 0
  has_null := false
  is_null _ := false
  null_val := none
  from_string := enum_from_string ut
  to_string := enum_to_string ut

/-! The enums of test_strconv.cxx lines 5-6: the plain `enum colour
{ red, green, blue }` and the scoped `enum class weather { hot, cold, wet }`,
both with underlying values 0, 1, 2. -/

/-- Enumerator `colour::red`. -/
def colour.red : Int := 0

/-- Enumerator `colour::green`. -/
def colour.green : Int := 1

/-- Enumerator `colour::blue`. -/
def colour.blue : Int := 2

/-- Enumerator `weather::hot`. -/
def weather.hot : Int := 0

/-- Enumerator `weather::cold`. -/
def weather.cold : Int := 1

/-- Enumerator `weather::wet`. -/
def weather.wet : Int := 2

/-- Traits declared by `PQXX_DECLARE_ENUM_CONVERSION(colour)`
(test_strconv.cxx line 11). -/
def colour_traits : StringTraits Int :=
  enum_string_traits int_traits "colour"

/-- Traits declared by `PQXX_DECLARE_ENUM_CONVERSION(weather)`
(test_strconv.cxx line 12). -/
def weather_traits : StringTraits Int :=
  enum_string_traits int_traits "weather"

/-! ## Buffer-based encoder (`pqxx::to_buf`, strconv.hxx lines 78-102)

Only the declaration and its contract live in strconv.hxx; the per-type
implementations are in `pqxx/internal/conversions.hxx`, absent from the
sources.  Modelled from the spec: writes the text plus a terminating zero
byte into the caller's buffer, returns a null view for a null value, and
raises `conversion_overrun` when the (possibly conservative) space check
finds the buffer too small; a successful non-null result is the untruncated
text, followed by a zero byte inside the buffer. -/

/-- Result of a successful non-null `to_buf` call: the returned view and the
buffer contents after the call. -/
structure BufResult where
  view : List Char
  buffer : List Char
deriving DecidableEq, Repr

/-- Modelled from the spec: `pqxx::to_buf` over a buffer of `bufsize` bytes.
`Except.ok none` is the null view returned for a null value;
`Except.ok (some r)` exposes the written view and buffer. -/
def to_buf_model {α : Type} (it : StringTraits α) (bufsize : Nat) (v : α) :
    Except ConvError (Option BufResult) :=
  if it.is_null v then Except.ok none
  else
    match it.to_string v with
    | Except.error e => Except.error e
    | Except.ok s =>
      if bufsize < s.data.length + 1 then Except.error ConvError.conversionOverrun
      else
        Except.ok (some
          { view := s.data
            buffer := s.data ++ Char.ofNat 0 ::
              List.replicate (bufsize - (s.data.length + 1)) (Char.ofNat 0) })

/-! ## Lemmas about the decimal digit machinery -/

theorem digit_char_ne_sign (d : Nat) :
    digit_char d ≠ '-' ∧ digit_char d ≠ '+' := by
  unfold digit_char
  split_ifs <;> exact ⟨by decide, by decide⟩

theorem digit_val_digit_char : ∀ d : Nat, d < 10 →
    digit_val (digit_char d) = some d := by
  decide

theorem parse_digits_aux_append (xs ys : List Char) :
    ∀ acc, parse_digits_aux (xs ++ ys) acc =
      (parse_digits_aux xs acc).bind (fun m => parse_digits_aux ys m) := by
  induction xs with
  | nil => intro acc; simp [parse_digits_aux]
  | cons c rest ih =>
    intro acc
    simp only [List.cons_append, parse_digits_aux]
    cases hdv : digit_val c with
    | none => simp
    | some d => simpa using ih (10 * acc + d)

theorem nat_digits_cons (n : Nat) :
    ∃ d rest, d < 10 ∧ nat_digits n = digit_char d :: rest := by
  induction n using Nat.strong_induction_on with
  | _ n ih =>
    rw [nat_digits]
    by_cases h : n < 10
    · exact ⟨n, [], h, by rw [dif_pos h]⟩
    · obtain ⟨d, rest, hd, hrec⟩ := ih (n / 10) (Nat.div_lt_self (by omega) (by omega))
      exact ⟨d, rest ++ [digit_char (n % 10)], hd, by rw [dif_neg h, hrec]; rfl⟩

theorem nat_digits_ne_nil (n : Nat) : nat_digits n ≠ [] := by
  obtain ⟨d, rest, _, h⟩ := nat_digits_cons n
  exact h ▸ List.cons_ne_nil _ _

theorem parse_nat_digits (n : Nat) :
    ∀ acc, parse_digits_aux (nat_digits n) acc =
      some (acc * 10 ^ (nat_digits n).length + n) := by
  induction n using Nat.strong_induction_on with
  | _ n ih =>
    intro acc
    by_cases h : n < 10
    · rw [nat_digits, dif_pos h]
      simp [parse_digits_aux, digit_val_digit_char n h]
      omega
    · rw [nat_digits, dif_neg h]
      rw [parse_digits_aux_append]
      rw [ih (n / 10) (Nat.div_lt_self (by omega) (by omega)) acc]
      simp only [Option.bind_some, parse_digits_aux,
        digit_val_digit_char (n % 10) (Nat.mod_lt n (by omega))]
      rw [List.length_append, List.length_singleton, pow_succ, ← Nat.mul_assoc]
      simp only [Option.some_bind, Option.some.injEq]
      have hdm := Nat.div_add_mod n 10
      generalize acc * 10 ^ (nat_digits (n / 10)).length = A
      omega

theorem parse_nat_digits_zero (n : Nat) :
    parse_digits_aux (nat_digits n) 0 = some n := by
  rw [parse_nat_digits n 0]
  simp

theorem int_round_trip (lo hi i : Int) (hlo : lo ≤ i) (hhi : i ≤ hi) :
    int_from_chars lo hi (int_to_chars i) = Except.ok i := by
  by_cases hneg : i < 0
  · rw [int_to_chars, if_pos hneg]
    rw [int_from_chars]
    rw [if_neg (List.cons_ne_nil _ _)]
    simp only [List.head?_cons, List.tail_cons, Option.some.injEq]
    simp only [show ('-' = '-') = True by simp, show ('-' = '+') = False by simp,
      decide_True, decide_False, if_true, Bool.true_or]
    rw [if_neg (nat_digits_ne_nil i.natAbs)]
    rw [parse_nat_digits_zero]
    have hv : (-1 : Int) * (i.natAbs : Int) = i := by omega
    simp only [hv]
    rw [if_pos ⟨hlo, hhi⟩]
  · rw [int_to_chars, if_neg hneg]
    obtain ⟨d, rest, hd, hrepr⟩ := nat_digits_cons i.natAbs
    have hsgn := digit_char_ne_sign d
    have hh : (nat_digits i.natAbs).head? = some (digit_char d) := by
      rw [hrepr]; rfl
    rw [int_from_chars]
    rw [if_neg (nat_digits_ne_nil i.natAbs)]
    simp only [hh, Option.some.injEq,
      eq_false hsgn.1, eq_false hsgn.2, decide_False, if_false, Bool.or_self,
      Bool.false_eq_true]
    rw [if_neg (nat_digits_ne_nil i.natAbs)]
    rw [parse_nat_digits_zero]
    have hv : (1 : Int) * (i.natAbs : Int) = i := by omega
    simp only [hv]
    rw [if_pos ⟨hlo, hhi⟩]

/-! ## Claim C1: classification of optional-like types -/

/-- C1 counterexample: the claim "never zero rules" fails.  The capability
vector `⟨derefable, bool-testable, not nullopt-assignable, not
nullptr-assignable⟩` is realised by the C++ type
`struct W { int operator*() const; explicit operator bool() const; };`:
it is dereferenceable and explicitly convertible to bool — so
`is_optional<W>` holds — yet `std::is_assignable<W, std::nullopt_t>` and
`std::is_assignable<W, std::nullptr_t>` are both false.  Every
`null_value<W>()` overload of type_utils.hxx lines 82-105 is then disabled:
zero rules apply, not exactly one. -/
theorem C1_zero_rules_counterexample :
    is_optional (TypeCaps.mk true true false false) = true ∧
    (enabled_rules (TypeCaps.mk true true false false)).length = 0 := by
  decide

/-- C1 amended: for every optional-like type at most one `null_value<T>()`
overload is enabled (the rules are mutually exclusive), and exactly one is
enabled precisely when the type accepts the generic empty marker
`std::nullopt` or is assignable from a null-pointer literal; an optional-like
type with neither capability has zero enabled overloads. -/
theorem C1_classification_amended (c : TypeCaps) (h : is_optional c = true) :
    (enabled_rules c).length ≤ 1 ∧
    ((enabled_rules c).length = 1 ↔
      (takes_std_nullopt c || c.nullptr_assignable) = true) := by
  rcases c with ⟨d, b, no, np⟩
  revert h
  cases d <;> cases b <;> cases no <;> cases np <;> decide

/-- C1 witness: `std::optional<int>`-like capabilities (dereferenceable,
boolean-testable, `nullopt`-assignable). -/
theorem C1_classification_witness :
    (enabled_rules (TypeCaps.mk true true true true)).length ≤ 1 ∧
    ((enabled_rules (TypeCaps.mk true true true true)).length = 1 ↔
      (takes_std_nullopt (TypeCaps.mk true true true true) ||
        (TypeCaps.mk true true true true).nullptr_assignable) = true) :=
  C1_classification_amended (TypeCaps.mk true true true true) (by decide)

/-! ## Claim C2: wrapper parsing of null input text -/

/-- C2 counterexample: a present-but-empty input view is not treated as
null by the optional-wrapper `from_string` (type_utils.hxx line 159 tests
`str.data() == nullptr` only).  For `std::optional<bool>`-like traits over
`bool`, the empty view is dispatched to the contained type's parser, which
rejects it — no null value is assigned. -/
theorem C2_empty_text_counterexample :
    opt_from_string bool_traits (some "") (none : Option Bool) =
      Except.error (ConvError.parseError "") ∧
    ¬ ∃ w, opt_from_string bool_traits (some "") (none : Option Bool) =
        Except.ok w ∧ opt_is_null bool_traits w = true := by
  refine ⟨rfl, ?_⟩
  rintro ⟨w, hw, -⟩
  rw [show opt_from_string bool_traits (some "") (none : Option Bool) =
    Except.error (ConvError.parseError "") from rfl] at hw
  exact Except.noConfusion hw

/-- C2 amended: only input text whose data pointer is null makes the
optional-wrapper `from_string` assign the canonical null value (on which
`is_null` then holds); every present view — the empty one included — is
dispatched to the contained type's parser, whose outcome (error, or a value
assigned through `opt_assign_parsed`) is the wrapper's outcome. -/
theorem C2_null_text_amended {α : Type} (it : StringTraits α)
    (obj old : Option α) (s : String) :
    (opt_from_string it none obj = Except.ok (opt_null α) ∧
      opt_is_null it (opt_null α) = true) ∧
    (∀ e, it.from_string (some s) it.default_val = Except.error e →
      opt_from_string it (some s) old = Except.error e) ∧
    (∀ inner, it.from_string (some s) it.default_val = Except.ok inner →
      opt_from_string it (some s) old =
        Except.ok (opt_assign_parsed old inner)) := by
  refine ⟨⟨rfl, rfl⟩, ?_, ?_⟩ <;> intro x hx <;> simp [opt_from_string, hx]

/-- C2 witness: null text into a disengaged `std::optional<bool>`-like
wrapper yields the null wrapper, and the present view `"7"` is dispatched to
the boolean parser, which rejects it. -/
theorem C2_null_text_witness :
    (opt_from_string bool_traits none (none : Option Bool) =
      Except.ok (opt_null Bool) ∧
      opt_is_null bool_traits (opt_null Bool) = true) ∧
    opt_from_string bool_traits (some "7") (none : Option Bool) =
      Except.error (ConvError.parseError "7") :=
  ⟨(C2_null_text_amended bool_traits none none "7").1,
    (C2_null_text_amended bool_traits none none "7").2.1
      (ConvError.parseError "7") rfl⟩

/-! ## Claim C3: the top-level null-input guard -/

/-- C3: the top-level `pqxx::from_string` (strconv.hxx lines 196-201) fails
on a null input view with the distinct `readNullString` error, identically
for every traits instance (so before any dispatch into
`string_traits<T>::from_string`); any present view — the empty one included —
is dispatched unchanged to the traits; and the failure is distinct from the
null-conversion and parse errors.  (In the embedding an error result carries
no new object: the output object is left unchanged.) -/
theorem C3_top_level_null_guard {α : Type} (it : StringTraits α) (obj : α) :
    from_string_top it none obj = Except.error ConvError.readNullString ∧
    (∀ it2 : StringTraits α, from_string_top it2 none obj =
      from_string_top it none obj) ∧
    (∀ s, from_string_top it (some s) obj = it.from_string (some s) obj) ∧
    (∀ tn inp, ConvError.readNullString ≠ ConvError.nullConversion tn ∧
      ConvError.readNullString ≠ ConvError.parseError inp) := by
  refine ⟨rfl, fun it2 => rfl, fun s => rfl, fun tn inp => ⟨?_, ?_⟩⟩ <;>
    intro h <;> exact ConvError.noConfusion h

/-- C3 witness: the guard at the boolean traits with an empty present view. -/
theorem C3_top_level_null_guard_witness :
    from_string_top bool_traits none false =
      Except.error ConvError.readNullString ∧
    from_string_top bool_traits (some "") false =
      bool_traits.from_string (some "") false :=
  ⟨(C3_top_level_null_guard bool_traits false).1,
    (C3_top_level_null_guard bool_traits false).2.2.1 ""⟩

/-! ## Claim C4: optional-wrapper formatting of null values -/

/-- C4: for optional-like wrapper traits, `to_string` (type_utils.hxx lines
170-174) raises the null-conversion error carrying the wrapper's type name
exactly when `is_null` holds, and otherwise returns the contained type's
`to_string` of the dereferenced value.  The hypothesis records that the
contained type's formatter does not itself produce that same error on
non-null values, which holds for every concrete trait here. -/
theorem C4_optional_to_string {α : Type} (it : StringTraits α)
    (tyName : String) (v : Option α)
    (hinner : ∀ x, it.is_null x = false →
      it.to_string x ≠ Except.error (ConvError.nullConversion tyName)) :
    (opt_to_string it tyName v =
        Except.error (ConvError.nullConversion tyName) ↔
      opt_is_null it v = true) ∧
    (opt_is_null it v = false → ∃ x, v = some x ∧
      opt_to_string it tyName v = it.to_string x) := by
  cases v with
  | none =>
    exact ⟨by simp [opt_to_string, opt_is_null], by simp [opt_is_null]⟩
  | some x =>
    cases hx : it.is_null x with
    | true =>
      refine ⟨?_, ?_⟩ <;> simp [opt_to_string, opt_is_null, hx]
    | false =>
      refine ⟨?_, ?_⟩
      · simp only [opt_to_string, opt_is_null, hx, Bool.false_eq_true,
          if_false]
        exact ⟨fun h => absurd h (hinner x hx), fun h => absurd h (by simp)⟩
      · exact fun _ => ⟨x, rfl, by simp [opt_to_string, hx]⟩

/-- C4 witness: an engaged `std::optional<bool>`-like wrapper holding `true`
formats through the boolean formatter; the disengaged wrapper raises the
null-conversion error with the wrapper's type name. -/
theorem C4_optional_to_string_witness :
    (opt_to_string bool_traits "std::optional<bool>" (some true) =
        Except.error (ConvError.nullConversion "std::optional<bool>") ↔
      opt_is_null bool_traits (some true) = true) ∧
    (opt_is_null bool_traits (some true) = false → ∃ x, some true = some x ∧
      opt_to_string bool_traits "std::optional<bool>" (some true) =
        bool_traits.to_string x) :=
  C4_optional_to_string bool_traits "std::optional<bool>" (some true)
    (fun _x _hx h => Except.noConfusion h)

/-! ## Claim C5: reuse-on-parse equals full reconstruction -/

/-- C5: parsing non-null text into an engaged wrapper takes the in-place
branch `*obj = inner` of type_utils.hxx line 165, and the resulting wrapper
state is exactly the state full reconstruction via
`internal::make_optional<T>` would produce — also the state produced when
the wrapper starts out disengaged.  The in-place mutation itself (unchanged
wrapper address) is a memory-identity fact with no observable counterpart in
the state model; the observable-equivalence half is what is stated. -/
theorem C5_reuse_equals_reconstruction {α : Type} (it : StringTraits α)
    (s : String) (x inner : α)
    (hparse : it.from_string (some s) it.default_val = Except.ok inner) :
    opt_from_string it (some s) (some x) = Except.ok (some inner) ∧
    opt_from_string it (some s) (some x) =
      opt_from_string it (some s) (none : Option α) ∧
    opt_assign_parsed (some x) inner = make_optional inner := by
  refine ⟨?_, ?_, rfl⟩ <;>
    simp [opt_from_string, hparse, opt_assign_parsed, make_optional]

/-- C5 witness: parsing `"true"` into a wrapper already holding `false`
yields the wrapper holding `true`, the same state reconstruction yields. -/
theorem C5_reuse_witness :
    opt_from_string bool_traits (some "true") (some false) =
      Except.ok (some true) ∧
    opt_from_string bool_traits (some "true") (some false) =
      opt_from_string bool_traits (some "true") (none : Option Bool) ∧
    opt_assign_parsed (some false) true = make_optional true :=
  C5_reuse_equals_reconstruction bool_traits "true" false true rfl

/-! ## Claim C10: nested nulls collapse -/

/-- C10: the optional-wrapper `is_null` (type_utils.hxx lines 154-155) holds
not only for the disengaged wrapper but also for an engaged wrapper whose
contained value is null by the contained type's traits; such a wrapper is
consequently rejected by `to_string` with the null-conversion error. -/
theorem C10_nested_null_collapse {α : Type} (it : StringTraits α)
    (tyName : String) (v : Option α) :
    (opt_is_null it v = true ↔
      v = none ∨ ∃ x, v = some x ∧ it.is_null x = true) ∧
    (∀ x, v = some x → it.is_null x = true →
      opt_is_null it v = true ∧
      opt_to_string it tyName v =
        Except.error (ConvError.nullConversion tyName)) := by
  cases v with
  | none => exact ⟨by simp [opt_is_null], by simp⟩
  | some x =>
    constructor
    · simp [opt_is_null]
    · rintro y hy hnull
      obtain rfl : x = y := by injection hy
      exact ⟨by simpa [opt_is_null] using hnull,
        by simp [opt_to_string, hnull]⟩

/-- C10 witness: a `std::optional<std::optional<bool>>`-like wrapper engaged
over the disengaged inner wrapper is null, and `to_string` rejects it. -/
theorem C10_nested_null_witness :
    opt_is_null (optional_string_traits bool_traits "std::optional<bool>")
      (some (none : Option Bool)) = true ∧
    opt_to_string (optional_string_traits bool_traits "std::optional<bool>")
      "std::optional<std::optional<bool>>" (some (none : Option Bool)) =
      Except.error
        (ConvError.nullConversion "std::optional<std::optional<bool>>") :=
  (C10_nested_null_collapse
    (optional_string_traits bool_traits "std::optional<bool>")
    "std::optional<std::optional<bool>>" (some none)).2 none rfl rfl

/-! ## Claim C8: the boolean grammar -/

/-- C8: formatting booleans yields exactly `"true"`/`"false"`; parsing
accepts exactly the ten literals of the grammar — `true`, `TRUE`, `t`, `T`,
`1` for true and `false`, `FALSE`, `f`, `F`, `0` for false — and every other
input, surrounding whitespace included, is a parse failure. -/
theorem C8_bool_grammar :
    bool_to_string_impl true = "true" ∧
    bool_to_string_impl false = "false" ∧
    (∀ s, bool_from_string_impl s = Except.ok true ↔
      s = "true" ∨ s = "TRUE" ∨ s = "t" ∨ s = "T" ∨ s = "1") ∧
    (∀ s, bool_from_string_impl s = Except.ok false ↔
      s = "false" ∨ s = "FALSE" ∨ s = "f" ∨ s = "F" ∨ s = "0") ∧
    bool_from_string_impl "maybe" =
      Except.error (ConvError.parseError "maybe") ∧
    bool_from_string_impl " true" =
      Except.error (ConvError.parseError " true") ∧
    bool_from_string_impl "true " =
      Except.error (ConvError.parseError "true ") := by
  refine ⟨rfl, rfl, ?_, ?_, rfl, rfl, rfl⟩
  · intro s
    constructor
    · intro h
      unfold bool_from_string_impl at h
      split_ifs at h with h1 h2
      · simp only [Bool.or_eq_true, decide_eq_true_eq] at h1
        tauto
      · exact absurd h (by simp)
    · intro hmem
      rcases hmem with h | h | h | h | h <;> subst h <;> rfl
  · intro s
    constructor
    · intro h
      unfold bool_from_string_impl at h
      split_ifs at h with h1 h2
      · exact absurd h (by simp)
      · simp only [Bool.or_eq_true, decide_eq_true_eq] at h2
        tauto
    · intro hmem
      rcases hmem with h | h | h | h | h <;> subst h <;> rfl

/-- C8 witness: the concrete grammar checks of `test_strconv_bool`
(test_strconv.cxx lines 18-44) at `"t"` and `"F"`. -/
theorem C8_bool_grammar_witness :
    bool_from_string_impl "t" = Except.ok true ∧
    bool_from_string_impl "F" = Except.ok false :=
  ⟨(C8_bool_grammar.2.2.1 "t").2 (by simp),
    (C8_bool_grammar.2.2.2.1 "F").2 (by simp)⟩

/-! ## Claim C7: buffer safety of `to_buf` -/

/-- C7: for a non-null value whose text is `s`, `to_buf` into a buffer of
exactly `s.data.length` bytes — one byte too small for the text plus its
terminator — fails with the buffer-overrun error (an `Except.error`, so no
view, truncated or otherwise, is exposed); and whenever the call succeeds
on a non-null value, the returned view is the full untruncated text and is
followed by one zero byte inside the buffer. -/
theorem C7_to_buf_overrun {α : Type} (it : StringTraits α) (v : α)
    (s : String) (hnn : it.is_null v = false)
    (hts : it.to_string v = Except.ok s) :
    to_buf_model it s.data.length v =
      Except.error ConvError.conversionOverrun ∧
    (∀ n r, to_buf_model it n v = Except.ok (some r) →
      r.view = s.data ∧
      r.view.length + 1 ≤ n ∧
      r.buffer.length = n ∧
      r.buffer.get? r.view.length = some (Char.ofNat 0)) := by
  constructor
  · simp only [to_buf_model, hnn, Bool.false_eq_true, if_false, hts]
    rw [if_pos (by omega)]
  · intro n r h
    simp only [to_buf_model, hnn, Bool.false_eq_true, if_false, hts] at h
    by_cases hn : n < s.data.length + 1
    · rw [if_pos hn] at h
      exact Except.noConfusion h
    · rw [if_neg hn] at h
      obtain rfl : BufResult.mk s.data (s.data ++ Char.ofNat 0 ::
          List.replicate (n - (s.data.length + 1)) (Char.ofNat 0)) = r := by
        injection h with h'
        injection h'
      refine ⟨rfl, ?_, ?_, ?_⟩
      · show s.data.length + 1 ≤ n
        omega
      · simp only [List.length_append, List.length_cons,
          List.length_replicate]
        omega
      · rw [List.get?_append_right (le_refl s.data.length)]
        simp

/-- C7 witness: formatting `true` ("true", 4 characters) into a 4-byte
buffer overruns; into a 6-byte buffer it succeeds with the terminator right
after the view. -/
theorem C7_to_buf_overrun_witness :
    to_buf_model bool_traits ("true".data.length) true =
      Except.error ConvError.conversionOverrun ∧
    (∀ n r, to_buf_model bool_traits n true = Except.ok (some r) →
      r.view = "true".data ∧
      r.view.length + 1 ≤ n ∧
      r.buffer.length = n ∧
      r.buffer.get? r.view.length = some (Char.ofNat 0)) :=
  C7_to_buf_overrun bool_traits true "true" rfl rfl

/-! ## Claim C9: enum conversions -/

/-- Auxiliary evaluation: the decimal rendering of 2. -/
theorem int_to_chars_two : int_to_chars 2 = ['2'] := by
  rw [int_to_chars, if_neg (by norm_num),
    show ((2 : Int).natAbs) = 2 from rfl, nat_digits, dif_pos (by norm_num)]
  rfl

/-- C9: under `enum_traits` (strconv.hxx lines 141-159) an enum formats as
the decimal text of its underlying integer and parses by parsing the
underlying integer type and reinterpreting the result as the enum with no
range validation — the out-of-range text `"7"` parses to the constructed
value 7 for `colour`, whose declared values stop at 2.  The scoped enum
`weather` has traits that behave identically to the plain enum `colour` on
every input, and the `{A=0,B=1,C=2}` checks of test_strconv.cxx lines 47-76
hold: `blue`/`weather::wet` format to `"2"` and `"2"` parses back to them. -/
theorem C9_enum_conversion :
    (∀ v : Int, colour_traits.to_string v =
      Except.ok (String.mk (int_to_chars (enum_underlying v)))) ∧
    (∀ str obj, colour_traits.from_string str obj =
      match int_traits.from_string str int_traits.default_val with
      | Except.error e => Except.error e
      | Except.ok tmp => Except.ok (enum_of_underlying tmp)) ∧
    colour_traits.to_string colour.blue = Except.ok "2" ∧
    colour_traits.from_string (some "2") colour_traits.default_val =
      Except.ok colour.blue ∧
    colour_traits.from_string (some "7") colour_traits.default_val =
      Except.ok 7 ∧
    (∀ str obj, colour_traits.from_string str obj =
      weather_traits.from_string str obj) ∧
    (∀ v, colour_traits.to_string v = weather_traits.to_string v) ∧
    weather_traits.to_string weather.wet = Except.ok "2" ∧
    weather_traits.from_string (some "2") weather_traits.default_val =
      Except.ok weather.wet := by
  refine ⟨fun v => rfl, fun str obj => rfl, ?_, rfl, rfl,
    fun str obj => rfl, fun v => rfl, ?_, rfl⟩
  · show Except.ok (String.mk (int_to_chars 2)) = Except.ok "2"
    rw [int_to_chars_two]
  · show Except.ok (String.mk (int_to_chars 2)) = Except.ok "2"
    rw [int_to_chars_two]

/-- C9 witness: the round figures of `test_strconv_enum` and
`test_strconv_class_enum`. -/
theorem C9_enum_conversion_witness :
    colour_traits.to_string colour.blue = Except.ok "2" ∧
    colour_traits.from_string (some "2") colour_traits.default_val =
      Except.ok colour.blue ∧
    weather_traits.from_string (some "2") weather_traits.default_val =
      Except.ok weather.wet :=
  ⟨C9_enum_conversion.2.2.1, C9_enum_conversion.2.2.2.1,
    C9_enum_conversion.2.2.2.2.2.2.2.2⟩


/-! ## Claim C6: parse after format is the identity -/

/-- Value `v` survives format-then-parse under traits `it`: formatting succeeds and
parsing the produced text — into whatever pre-existing object — returns `v`. -/

def round_trips {α : Type} (it : StringTraits α) (v : α) : Prop :=
  ∀ obj : α, ∃ s, it.to_string v = Except.ok s ∧
    it.from_string (some s) obj = Except.ok v


/-- C6: round-trip for every supported conversion — booleans, the bounded
integer type, both declared enums (every in-range underlying value), and
optional-like wrappers over any contained type whose non-null values
themselves round-trip. -/

theorem C6_round_trip :
    (∀ b : Bool, round_trips bool_traits b) ∧
    (∀ i : Int, cint_min ≤ i → i ≤ cint_max → round_trips int_traits i) ∧
    (∀ e : Int, cint_min ≤ e → e ≤ cint_max →
      round_trips colour_traits e ∧ round_trips weather_traits e) ∧
    (∀ (α : Type) (it : StringTraits α) (tyName : String) (x : α),
      it.is_null x = false → round_trips it x →
      round_trips (optional_string_traits it tyName) (some x)) := by
  refine ⟨?_, ?_, ?_, ?_⟩
  · intro b obj
    cases b
    · exact ⟨"false", rfl, rfl⟩
    · exact ⟨"true", rfl, rfl⟩
  · intro i h1 h2 obj
    refine ⟨String.mk (int_to_chars i), rfl, ?_⟩
    show int_from_chars cint_min cint_max (String.mk (int_to_chars i)).data =
      Except.ok i
    rw [show (String.mk (int_to_chars i)).data = int_to_chars i from rfl]
    exact int_round_trip cint_min cint_max i h1 h2
  · intro e h1 h2
    constructor <;>
    · intro obj
      refine ⟨String.mk (int_to_chars e), rfl, ?_⟩
      show (match int_from_chars cint_min cint_max
          (String.mk (int_to_chars e)).data with
        | Except.error er => Except.error er
        | Except.ok tmp => Except.ok (enum_of_underlying tmp)) = Except.ok e
      rw [show (String.mk (int_to_chars e)).data = int_to_chars e from rfl]
      rw [int_round_trip cint_min cint_max e h1 h2]
      rfl
  · intro α it tyName x hnull hrt obj
    obtain ⟨s, hts, hfs⟩ := hrt it.default_val
    refine ⟨s, ?_, ?_⟩
    · show opt_to_string it tyName (some x) = Except.ok s
      simp [opt_to_string, hnull, hts]
    · show opt_from_string it (some s) obj = Except.ok (some x)
      cases obj <;> simp [opt_from_string, hfs, opt_assign_parsed, make_optional]

/-- C6 witness: instances of the round-trip at `true`, at the integer 5, at
`colour.blue`, and at an engaged `std::optional<bool>`-like wrapper. -/
theorem C6_round_trip_witness :
    round_trips bool_traits true ∧
    round_trips int_traits 5 ∧
    round_trips colour_traits colour.blue ∧
    round_trips (optional_string_traits bool_traits "std::optional<bool>")
      (some true) :=
  ⟨C6_round_trip.1 true,
    C6_round_trip.2.1 5 (by decide) (by decide),
    (C6_round_trip.2.2.1 colour.blue (by decide) (by decide)).1,
    C6_round_trip.2.2.2 Bool bool_traits "std::optional<bool>" true rfl
      (fun obj => ⟨"true", rfl, rfl⟩)⟩
